import Mathlib

/-!
Verification of the detect–dedupe–rate-limit–reply control loop of
`smart_bot.py` (WhatsApp auto-reply bot).

The embedding below mirrors the source line by line.  Timestamps
(`time.time()` values) are modelled as integers (seconds); the Python dict
`message_history` is modelled as an association list; each external
collaborator (window focus, screen capture, the Gemini oracle, the mouse
clicks and the keyboard typing) is given to a loop iteration as a raw
outcome `Except PyExn α`: either the value it produced or the Python
exception it raised.  `except Exception` blocks in the source catch every
exception other than `KeyboardInterrupt` (which derives from
`BaseException`), so the embedding of every such handler lets
`PyExn.keyboardInterrupt` pass through and absorbs `PyExn.error`.

The two external pure library functions the loop uses — `hashlib.md5`
(via `generate_image_hash`) and `json.loads` — are parameters of the
embedding (`md5_hexdigest`, `json_loads`), since their internals are not
part of this repository.
-/

namespace WBot

/-- A Python exception: the interrupt signal, or any `Exception`. -/
inductive PyExn
  | keyboardInterrupt
  | error (msg : String)
  deriving DecidableEq

instance {ε α : Type} [DecidableEq ε] [DecidableEq α] : DecidableEq (Except ε α) := fun x y =>
  match x, y with
  | .ok a, .ok b =>
    if h : a = b then isTrue (by rw [h]) else isFalse (by simp [h])
  | .error a, .error b =>
    if h : a = b then isTrue (by rw [h]) else isFalse (by simp [h])
  | .ok _, .error _ => isFalse (by simp)
  | .error _, .ok _ => isFalse (by simp)

/-- A captured frame; only its raw pixel bytes matter to the core loop. -/
structure Image where
  tobytes : List ℕ
  deriving DecidableEq

/-- `REPLY_COOLDOWN = 300` (smart_bot.py line 29). -/
def REPLY_COOLDOWN : ℤ := 300

/-- `SCAN_INTERVAL = 20` (smart_bot.py line 30). -/
def SCAN_INTERVAL : ℕ := 20

/-- `MAX_REPLIES_PER_HOUR = 10` (smart_bot.py line 31). -/
def MAX_REPLIES_PER_HOUR : ℕ := 10

/-- The dedupe ledger `message_history`: fingerprint → last-reply time. -/
abbrev DedupeLedger := List (String × ℤ)

/-- `message_history.get(k, dflt)`. -/
def dictGet (d : DedupeLedger) (k : String) (dflt : ℤ) : ℤ :=
  match d.find? (fun p => p.1 == k) with
  | some p => p.2
  | none => dflt

/-- `message_history[k] = v`: replace the entry if the key is present,
otherwise append it. -/
def dictSet (d : DedupeLedger) (k : String) (v : ℤ) : DedupeLedger :=
  if d.any (fun p => p.1 == k) then
    d.map (fun p => if p.1 == k then (k, v) else p)
  else d ++ [(k, v)]

/-- `message_history.clear()` (smart_bot.py line 297). -/
def dict_clear (_d : DedupeLedger) : DedupeLedger := []

/-- The pruning loop of smart_bot.py lines 298-300: delete every entry
whose recorded time is more than 86400 seconds (24 h) old. -/
def prune_history (d : DedupeLedger) (current_time : ℤ) : DedupeLedger :=
  d.filter (fun p => !decide (current_time - p.2 > 86400))

/-- `reply_counter = {"count": ..., "reset_time": ...}`. -/
structure RateState where
  count : ℕ
  reset_time : ℤ
  deriving DecidableEq

/-- The process-wide mutable state of the bot: `message_history` and
`reply_counter` (smart_bot.py lines 46-47). -/
structure BotState where
  message_history : DedupeLedger
  reply_counter : RateState
  deriving DecidableEq

/-- The parsed oracle decision `{should_reply, message_detected, reply}`. -/
structure ReplyDecision where
  should_reply : Bool
  message_detected : String
  reply : String
  deriving DecidableEq

/-- `generate_image_hash` (smart_bot.py lines 98-100):
`hashlib.md5(img.tobytes()).hexdigest()`, with the md5 library function a
parameter of the embedding. -/
def generate_image_hash (md5_hexdigest : List ℕ → String) (img : Image) : String :=
  md5_hexdigest img.tobytes

/-- Python `s.split(sep)` on character lists, with explicit fuel (the fuel
is always instantiated with the length of the list, which the scan can
never outrun, so the `0` branch is unreachable).  Scans left to right,
cutting at each non-overlapping occurrence of `sep`. -/
def py_split_aux (sep : List Char) (cur : List Char) : ℕ → List Char → List (List Char)
  | _, [] => [cur.reverse]
  | 0, l => [cur.reverse ++ l]
  | fuel+1, c :: rest =>
    if sep.isPrefixOf (c :: rest) then
      cur.reverse :: py_split_aux sep [] fuel (List.drop (sep.length - 1) rest)
    else py_split_aux sep (c :: cur) fuel rest

/-- Python `s.split(sep)` for a non-empty separator. -/
def py_split (s : String) (sep : String) : List String :=
  (py_split_aux sep.data [] s.data.length s.data).map (fun l => ⟨l⟩)

/-- Python `s.strip()`: drop whitespace from both ends. -/
def py_strip (s : String) : String :=
  ⟨((s.data.dropWhile Char.isWhitespace).reverse.dropWhile Char.isWhitespace).reverse⟩

/-- The code-fence stripping of smart_bot.py lines 145-148:
`if "```json" in result: result = result.split("```json")[1].split("```")[0].strip()`
`elif "```" in result: result = result.split("```")[1].split("```")[0].strip()`.
(`sep in s` holds exactly when `s.split(sep)` has at least two pieces.) -/
def strip_fences (result : String) : String :=
  match py_split result "```json" with
  | _ :: s1 :: _ => py_strip ((py_split s1 "```").headD "")
  | _ =>
    match py_split result "```" with
    | _ :: s1 :: _ => py_strip ((py_split s1 "```").headD "")
    | _ => result

/-- `focus_whatsapp` (smart_bot.py lines 50-66).  `raw` is the outcome of
the try-body (window lookup, restore, activate): `True`/`False` or a
raised exception.  `except Exception` returns `False`; the interrupt
passes through. -/
def focus_whatsapp (raw : Except PyExn Bool) : Except PyExn Bool × List String :=
  match raw with
  | .ok true => (.ok true, [])
  | .ok false => (.ok false, ["[!] WhatsApp window not found"])
  | .error .keyboardInterrupt => (.error .keyboardInterrupt, [])
  | .error (.error m) => (.ok false, ["[!] Window focus error: " ++ m])

/-- `get_chat_image` (smart_bot.py lines 69-95).  `raw` is the outcome of
the try-body (window lookup, screenshot, debug save): an image, `None`
when the window is missing, or a raised exception.  `except Exception`
returns `None`; the interrupt passes through. -/
def get_chat_image (raw : Except PyExn (Option Image)) :
    Except PyExn (Option Image) × List String :=
  match raw with
  | .ok (some img) => (.ok (some img), [])
  | .ok none => (.ok none, ["[!] WhatsApp window not found"])
  | .error .keyboardInterrupt => (.error .keyboardInterrupt, [])
  | .error (.error m) => (.ok none, ["[!] Screenshot error: " ++ m])

/-- `analyze_message_and_generate_reply` (smart_bot.py lines 103-163).
`raw` is the outcome of the Gemini call (`response.text`), `json_loads`
the JSON parser.  The response text is stripped, code fences removed, and
parsed; `except json.JSONDecodeError` and `except Exception` both return
`{"should_reply": False, "message_detected": "", "reply": ""}`; the
interrupt passes through. -/
def analyze_message_and_generate_reply
    (json_loads : String → Option ReplyDecision)
    (raw : Except PyExn String) : Except PyExn ReplyDecision × List String :=
  match raw with
  | .error .keyboardInterrupt => (.error .keyboardInterrupt, [])
  | .error (.error m) => (.ok ⟨false, "", ""⟩, ["[!] Gemini error: " ++ m])
  | .ok text =>
    let result := strip_fences (py_strip text)
    match json_loads result with
    | none => (.ok ⟨false, "", ""⟩,
        ["[!] JSON parsing error", "[!] Raw response: " ++ result])
    | some data => (.ok data,
        ["[AI] Detected: " ++ data.message_detected,
         "[AI] Should reply: " ++ toString data.should_reply])

/-- `click_on_chat_area_and_input` (smart_bot.py lines 166-195).  `raw` is
the outcome of the try-body (window lookup and the two clicks):
`True`/`False` or a raised exception.  `except Exception` returns
`False`; the interrupt passes through. -/
def click_on_chat_area_and_input (raw : Except PyExn Bool) :
    Except PyExn Bool × List String :=
  match raw with
  | .ok true => (.ok true, ["[👆] Clicked on chat area", "[👆] Clicked on message input"])
  | .ok false => (.ok false, [])
  | .error .keyboardInterrupt => (.error .keyboardInterrupt, [])
  | .error (.error m) => (.ok false, ["[!] Click error: " ++ m])

/-- `send_reply` (smart_bot.py lines 198-219): click into the chat, then
type the message and press enter.  `typing` is the outcome of the
`pyautogui.write`/`press` sequence.  Returns `False` when the click
helper fails or when `except Exception` fires; the interrupt passes
through. -/
def send_reply (click : Except PyExn Bool) (typing : Except PyExn Unit)
    (message : String) : Except PyExn Bool × List String :=
  match click_on_chat_area_and_input click with
  | (.error .keyboardInterrupt, lg) => (.error .keyboardInterrupt, lg)
  | (.error (.error m), lg) => (.ok false, lg ++ ["[!] Reply failed: " ++ m])
  | (.ok false, lg) => (.ok false, lg ++ ["[!] Failed to focus on chat input"])
  | (.ok true, lg) =>
    match typing with
    | .error .keyboardInterrupt => (.error .keyboardInterrupt, lg ++ ["[⌨️] Typing reply..."])
    | .error (.error m) =>
      (.ok false, lg ++ ["[⌨️] Typing reply...", "[!] Reply failed: " ++ m])
    | .ok _ => (.ok true, lg ++ ["[⌨️] Typing reply...", "[✓] Sent: " ++ message])

/-- `check_rate_limit` (smart_bot.py lines 222-235): reset the counter
when strictly more than 3600 s have elapsed since `reset_time`, then
refuse when the count is at or over `MAX_REPLIES_PER_HOUR`.  Returns the
allow flag together with the (possibly reset) counter state. -/
def check_rate_limit (current_time : ℤ) (rc : RateState) : Bool × RateState :=
  let rc := if current_time - rc.reset_time > 3600 then ⟨0, current_time⟩ else rc
  if rc.count ≥ MAX_REPLIES_PER_HOUR then (false, rc)
  else (true, rc)

/-- One iteration's view of the external world: the `time.time()` values
read at the cooldown gate (line 273), inside `check_rate_limit`
(line 224), at the bookkeeping write (line 292) and at the cleanup
(line 296), plus the raw outcome of each external collaborator. -/
structure IterEnv where
  tGate : ℤ
  tRate : ℤ
  tBook : ℤ
  tClean : ℤ
  focus : Except PyExn Bool
  capture : Except PyExn (Option Image)
  oracle : Except PyExn String
  click : Except PyExn Bool
  typing : Except PyExn Unit
  deriving DecidableEq

/-- How one pass through the loop body ended. -/
inductive Phase
  | aborted
  | noFocus
  | noCapture
  | cooldownSuppressed
  | rateLimited
  | noReply
  | sendFailed
  | sent
  deriving DecidableEq

/-- Result of one pass through the `try:` body of the main loop:
the state as mutated so far, the exception propagating out of the body
(if any), the ending phase, whether the Gemini oracle was invoked, and
the console lines printed. -/
structure IterOut where
  state : BotState
  exc : Option PyExn
  phase : Phase
  oracleInvoked : Bool
  log : List String
  deriving DecidableEq

/-- The `try:` body of the main loop (smart_bot.py lines 253-304):
focus the window, capture, fingerprint, cooldown gate, rate-limit gate,
oracle, injection, bookkeeping.  Each `continue` of the source ends the
pass with the corresponding phase. -/
def loop_body (md5_hexdigest : List ℕ → String)
    (json_loads : String → Option ReplyDecision)
    (env : IterEnv) (s : BotState) : IterOut :=
  match focus_whatsapp env.focus with
  | (.error e, lg) => ⟨s, some e, .aborted, false, lg⟩
  | (.ok false, lg) => ⟨s, none, .noFocus, false, lg⟩
  | (.ok true, lg0) =>
    match get_chat_image env.capture with
    | (.error e, lg) => ⟨s, some e, .aborted, false, lg0 ++ lg⟩
    | (.ok none, lg) => ⟨s, none, .noCapture, false, lg0 ++ lg⟩
    | (.ok (some chat_img), lg1) =>
      let img_hash := generate_image_hash md5_hexdigest chat_img
      let last_reply_time := dictGet s.message_history img_hash 0
      if env.tGate - last_reply_time < REPLY_COOLDOWN then
        ⟨s, none, .cooldownSuppressed, false,
          lg0 ++ lg1 ++ ["[→] Already replied to this message recently (cooldown active)"]⟩
      else
        match check_rate_limit env.tRate s.reply_counter with
        | (false, rc) =>
          ⟨⟨s.message_history, rc⟩, none, .rateLimited, false,
            lg0 ++ lg1 ++ ["[!] Rate limit reached. Cooling down..."]⟩
        | (true, rc) =>
          match analyze_message_and_generate_reply json_loads env.oracle with
          | (.error e, lg2) =>
            ⟨⟨s.message_history, rc⟩, some e, .aborted, true, lg0 ++ lg1 ++ lg2⟩
          | (.ok result, lg2) =>
            if result.should_reply && result.reply != "" then
              match send_reply env.click env.typing result.reply with
              | (.error e, lg3) =>
                ⟨⟨s.message_history, rc⟩, some e, .aborted, true,
                  lg0 ++ lg1 ++ lg2 ++ lg3⟩
              | (.ok false, lg3) =>
                ⟨⟨s.message_history, rc⟩, none, .sendFailed, true,
                  lg0 ++ lg1 ++ lg2 ++ lg3⟩
              | (.ok true, lg3) =>
                let hist1 := dictSet s.message_history img_hash env.tBook
                let rc1 : RateState := ⟨rc.count + 1, rc.reset_time⟩
                let hist2 := dict_clear hist1
                let hist3 := prune_history hist2 env.tClean
                ⟨⟨hist3, rc1⟩, none, .sent, true, lg0 ++ lg1 ++ lg2 ++ lg3⟩
            else
              ⟨⟨s.message_history, rc⟩, none, .noReply, true,
                lg0 ++ lg1 ++ lg2 ++ ["[→] No new message requiring a reply"]⟩

/-- Whether the main loop continued to the next iteration or exited. -/
inductive LoopCtl
  | cont
  | stop
  deriving DecidableEq

/-- One full iteration of `main`'s `while True` (smart_bot.py lines
252-311), the exception handlers included. -/
structure StepOut where
  state : BotState
  ctl : LoopCtl
  sleptFor : ℕ
  phase : Phase
  oracleInvoked : Bool
  log : List String
  deriving DecidableEq

/-- One iteration of `main`'s `while True`: run the `try:` body, then
apply the handlers — `except KeyboardInterrupt: break` and
`except Exception as e: print(...); time.sleep(SCAN_INTERVAL)`.  Every
path that continues sleeps for `SCAN_INTERVAL` seconds. -/
def main_step (md5_hexdigest : List ℕ → String)
    (json_loads : String → Option ReplyDecision)
    (env : IterEnv) (s : BotState) : StepOut :=
  let o := loop_body md5_hexdigest json_loads env s
  match o.exc with
  | none => ⟨o.state, .cont, SCAN_INTERVAL, o.phase, o.oracleInvoked, o.log⟩
  | some .keyboardInterrupt =>
    ⟨o.state, .stop, 0, o.phase, o.oracleInvoked, o.log ++ ["[!] Bot stopped by user"]⟩
  | some (.error m) =>
    ⟨o.state, .cont, SCAN_INTERVAL, o.phase, o.oracleInvoked,
      o.log ++ ["[💥] Error: " ++ m]⟩

/-- Run the loop over a finite schedule of iteration environments;
returns the final state and the number of iterations actually executed
(the loop exits early only via `LoopCtl.stop`). -/
def run_loop (md5_hexdigest : List ℕ → String)
    (json_loads : String → Option ReplyDecision) :
    List IterEnv → BotState → BotState × ℕ
  | [], s => (s, 0)
  | env :: rest, s =>
    let o := main_step md5_hexdigest json_loads env s
    match o.ctl with
    | .stop => (o.state, 1)
    | .cont =>
      let r := run_loop md5_hexdigest json_loads rest o.state
      (r.1, r.2 + 1)

/-- No external collaborator of this iteration raises the interrupt. -/
def IterEnv.noInterrupt (env : IterEnv) : Prop :=
  env.focus ≠ .error .keyboardInterrupt ∧
  env.capture ≠ .error .keyboardInterrupt ∧
  env.oracle ≠ .error .keyboardInterrupt ∧
  env.click ≠ .error .keyboardInterrupt ∧
  env.typing ≠ .error .keyboardInterrupt

instance (env : IterEnv) : Decidable env.noInterrupt := by
  unfold IterEnv.noInterrupt
  infer_instance

/-! ### Concrete fixtures used by witnesses and counterexamples -/

/-- A concrete stand-in for `hashlib.md5(...).hexdigest()`: every frame of
the scenario hashes to `"abc123"` (the fingerprint of §8 of the spec). -/
def md5c : List ℕ → String := fun _ => "abc123"

/-- A concrete parser standing in for `json.loads` on an oracle response
that decodes to a positive reply decision. -/
def jlYes : String → Option ReplyDecision :=
  fun _ => some ⟨true, "good morning", "morning"⟩

/-- A concrete parser standing in for `json.loads` on text that is not
valid JSON. -/
def jlNo : String → Option ReplyDecision := fun _ => none

/-- A one-pixel frame. -/
def img0 : Image := ⟨[0]⟩

/-- The initial state: empty ledger, zero counter (smart_bot.py 46-47). -/
def s0 : BotState := ⟨[], ⟨0, 0⟩⟩

/-- A fully successful iteration environment at time 1000. -/
def env1000 : IterEnv :=
  ⟨1000, 1000, 1000, 1000, .ok true, .ok (some img0), .ok "resp", .ok true, .ok ()⟩

/-- The same environment 60 seconds later (within the 300 s cooldown). -/
def env1060 : IterEnv :=
  ⟨1060, 1060, 1060, 1060, .ok true, .ok (some img0), .ok "resp", .ok true, .ok ()⟩

/-! ### Helper lemmas -/

/-- The exception handlers of `main` pass the body's state, phase and
oracle-invocation flag through unchanged. -/
theorem main_step_mirrors_body (md5 : List ℕ → String)
    (jl : String → Option ReplyDecision) (env : IterEnv) (s : BotState) :
    (main_step md5 jl env s).phase = (loop_body md5 jl env s).phase ∧
    (main_step md5 jl env s).state = (loop_body md5 jl env s).state ∧
    (main_step md5 jl env s).oracleInvoked = (loop_body md5 jl env s).oracleInvoked := by
  unfold main_step
  cases h : (loop_body md5 jl env s).exc with
  | none => simp [h]
  | some e => cases e <;> simp [h]

/-- `focus_whatsapp` propagates an exception only when the window calls
raised the interrupt; every other exception is absorbed. -/
theorem focus_whatsapp_eq_error (raw : Except PyExn Bool) (e : PyExn) (lg : List String) :
    focus_whatsapp raw = (.error e, lg) ↔
      raw = .error .keyboardInterrupt ∧ e = .keyboardInterrupt ∧ lg = [] := by
  rcases raw with ef | b
  · cases ef <;> simp [focus_whatsapp, eq_comm]
  · cases b <;> simp [focus_whatsapp]

/-- `get_chat_image` propagates an exception only when the capture calls
raised the interrupt; every other exception is absorbed. -/
theorem get_chat_image_eq_error (raw : Except PyExn (Option Image)) (e : PyExn)
    (lg : List String) :
    get_chat_image raw = (.error e, lg) ↔
      raw = .error .keyboardInterrupt ∧ e = .keyboardInterrupt ∧ lg = [] := by
  rcases raw with ef | b
  · cases ef <;> simp [get_chat_image, eq_comm]
  · rcases b with _ | i <;> simp [get_chat_image]

/-- `analyze_message_and_generate_reply` propagates an exception only
when the oracle call raised the interrupt; transport errors and parse
failures are absorbed into the quiet no-reply decision. -/
theorem analyze_eq_error (jl : String → Option ReplyDecision)
    (raw : Except PyExn String) (e : PyExn) (lg : List String) :
    analyze_message_and_generate_reply jl raw = (.error e, lg) ↔
      raw = .error .keyboardInterrupt ∧ e = .keyboardInterrupt ∧ lg = [] := by
  rcases raw with ef | t
  · cases ef <;> simp [analyze_message_and_generate_reply, eq_comm]
  · simp only [analyze_message_and_generate_reply]
    split <;> simp

/-- `send_reply` propagates an exception only when the click or typing
simulation raised the interrupt; every other exception is absorbed into
a `False` (send failed) result. -/
theorem send_reply_eq_error (click : Except PyExn Bool) (typing : Except PyExn Unit)
    (message : String) (e : PyExn) (lg : List String) :
    send_reply click typing message = (.error e, lg) ↔
      e = .keyboardInterrupt ∧
        ((click = .error .keyboardInterrupt ∧ lg = []) ∨
         (click = .ok true ∧ typing = .error .keyboardInterrupt ∧
          lg = ["[👆] Clicked on chat area", "[👆] Clicked on message input",
                "[⌨️] Typing reply..."])) := by
  rcases click with cf | cb
  · cases cf <;> simp [send_reply, click_on_chat_area_and_input, eq_comm]
  · cases cb
    · simp [send_reply, click_on_chat_area_and_input]
    · rcases typing with tf | u
      · cases tf <;> simp [send_reply, click_on_chat_area_and_input, eq_comm]
      · simp [send_reply, click_on_chat_area_and_input]

/-- The loop body either finishes without an exception, or the escaping
exception is the interrupt raised by one of the external calls. -/
theorem loop_body_exc_cases (md5 : List ℕ → String)
    (jl : String → Option ReplyDecision) (env : IterEnv) (s : BotState) :
    (loop_body md5 jl env s).exc = none ∨
    ((loop_body md5 jl env s).exc = some PyExn.keyboardInterrupt ∧ ¬env.noInterrupt) := by
  simp only [loop_body]
  repeat' split
  all_goals
    simp_all [focus_whatsapp_eq_error, get_chat_image_eq_error, analyze_eq_error,
      send_reply_eq_error, IterEnv.noInterrupt]
  all_goals tauto

/-- The main-loop iteration exits (breaks) exactly when the body let the
interrupt escape. -/
theorem main_step_stop_iff (md5 : List ℕ → String)
    (jl : String → Option ReplyDecision) (env : IterEnv) (s : BotState) :
    (main_step md5 jl env s).ctl = LoopCtl.stop ↔
      (loop_body md5 jl env s).exc = some PyExn.keyboardInterrupt := by
  unfold main_step
  cases h : (loop_body md5 jl env s).exc with
  | none => simp [h]
  | some e => cases e <;> simp [h]

/-- A continuing iteration always sleeps for `SCAN_INTERVAL`. -/
theorem main_step_cont_sleeps (md5 : List ℕ → String)
    (jl : String → Option ReplyDecision) (env : IterEnv) (s : BotState)
    (h : (main_step md5 jl env s).ctl = LoopCtl.cont) :
    (main_step md5 jl env s).sleptFor = SCAN_INTERVAL := by
  unfold main_step at h ⊢
  cases he : (loop_body md5 jl env s).exc with
  | none => simp [he]
  | some e =>
    cases e
    · simp [he] at h
    · simp [he]

/-- Under the hypotheses that the window was focused, a frame was
captured and the cooldown gate does not fire, a refused rate check ends
the pass `rateLimited`: the oracle is not invoked, the ledger is
untouched, and the counter state is the one the rate check produced. -/
theorem loop_body_rate_refused (md5 : List ℕ → String)
    (jl : String → Option ReplyDecision) (env : IterEnv) (s : BotState) (img : Image)
    (hf : env.focus = .ok true) (hc : env.capture = .ok (some img))
    (hgate : ¬(env.tGate - dictGet s.message_history (generate_image_hash md5 img) 0
      < REPLY_COOLDOWN))
    (hcr : (check_rate_limit env.tRate s.reply_counter).1 = false) :
    (loop_body md5 jl env s).phase = Phase.rateLimited ∧
    (loop_body md5 jl env s).oracleInvoked = false ∧
    (loop_body md5 jl env s).state =
      ⟨s.message_history, (check_rate_limit env.tRate s.reply_counter).2⟩ := by
  rcases hcrp : check_rate_limit env.tRate s.reply_counter with ⟨b, rc⟩
  rw [hcrp] at hcr
  simp at hcr
  subst hcr
  simp [loop_body, hf, hc, focus_whatsapp, get_chat_image, if_neg hgate, hcrp]

/-- Under the hypotheses that the window was focused and a frame was
captured, an active cooldown ends the pass `cooldownSuppressed` with the
whole state untouched (the rate check is not even consulted), whatever
the rate counter holds. -/
theorem loop_body_cooldown_first (md5 : List ℕ → String)
    (jl : String → Option ReplyDecision) (env : IterEnv) (s : BotState) (img : Image)
    (hf : env.focus = .ok true) (hc : env.capture = .ok (some img))
    (hgate : env.tGate - dictGet s.message_history (generate_image_hash md5 img) 0
      < REPLY_COOLDOWN) :
    (loop_body md5 jl env s).phase = Phase.cooldownSuppressed ∧
    (loop_body md5 jl env s).oracleInvoked = false ∧
    (loop_body md5 jl env s).state = s := by
  simp [loop_body, hf, hc, focus_whatsapp, get_chat_image, if_pos hgate]

/-- Under the hypotheses that the gates passed, the oracle decided to
reply and the injection reported failure, the pass ends `sendFailed`
with the ledger untouched and the counter exactly as the rate check left
it. -/
theorem loop_body_send_failed (md5 : List ℕ → String)
    (jl : String → Option ReplyDecision) (env : IterEnv) (s : BotState) (img : Image)
    (d : ReplyDecision)
    (hf : env.focus = .ok true) (hc : env.capture = .ok (some img))
    (hgate : ¬(env.tGate - dictGet s.message_history (generate_image_hash md5 img) 0
      < REPLY_COOLDOWN))
    (hcr : (check_rate_limit env.tRate s.reply_counter).1 = true)
    (han : (analyze_message_and_generate_reply jl env.oracle).1 = .ok d)
    (hsr : (d.should_reply && d.reply != "") = true)
    (hsend : (send_reply env.click env.typing d.reply).1 = .ok false) :
    (loop_body md5 jl env s).phase = Phase.sendFailed ∧
    (loop_body md5 jl env s).state =
      ⟨s.message_history, (check_rate_limit env.tRate s.reply_counter).2⟩ := by
  rcases hcrp : check_rate_limit env.tRate s.reply_counter with ⟨b, rc⟩
  rw [hcrp] at hcr
  simp at hcr
  subst hcr
  rcases hanp : analyze_message_and_generate_reply jl env.oracle with ⟨ar, lg2⟩
  rw [hanp] at han
  simp at han
  subst han
  rcases hsp : send_reply env.click env.typing d.reply with ⟨sr, lg3⟩
  rw [hsp] at hsend
  simp at hsend
  subst hsend
  simp [loop_body, hf, hc, focus_whatsapp, get_chat_image, if_neg hgate, hcrp, hanp,
    hsr, hsp]

/-! ### Claim theorems -/

/-- C1: the claim says a reply is sent for a fingerprint at most once per
cooldown interval — a frame with the same fingerprint captured 60 s after
a successful send must be suppressed at the gate and the oracle must not
be invoked.  The code violates this: the bookkeeping of the successful
send at time 1000 executes `message_history.clear()`, wiping the entry it
just recorded, so the iteration at time 1060 (60 s later, cooldown 300 s)
passes the gate and invokes the oracle again. -/
theorem C1_cooldown_not_enforced_after_send :
    (main_step md5c jlYes env1000 s0).phase = Phase.sent ∧
    (main_step md5c jlYes env1060 (main_step md5c jlYes env1000 s0).state).phase
      ≠ Phase.cooldownSuppressed ∧
    (main_step md5c jlYes env1060 (main_step md5c jlYes env1000 s0).state).oracleInvoked
      = true := by decide

/-- C2: the claim says bookkeeping leaves `DedupeLedger[F] = now` and in
particular one successful send from the empty state yields a ledger
containing exactly `F → now` and count 1.  The code violates the ledger
half: after the successful send at time 1000 from the empty state the
count is 1 as claimed, but `message_history.clear()` (line 297) has wiped
the entry recorded at line 292, leaving the ledger empty instead of
`[("abc123", 1000)]`. -/
theorem C2_bookkeeping_ledger_cleared :
    (main_step md5c jlYes env1000 s0).phase = Phase.sent ∧
    (main_step md5c jlYes env1000 s0).state.reply_counter.count = 1 ∧
    (main_step md5c jlYes env1000 s0).state.message_history = [] ∧
    (main_step md5c jlYes env1000 s0).state.message_history ≠ [("abc123", 1000)] := by
  decide

/-- C5: an oracle response whose text is not valid JSON after code-fence
stripping resolves to the decision `{should_reply := false,
message_detected := "", reply := ""}` and no exception leaves
`analyze_message_and_generate_reply` (the result is `.ok`, never
`.error`); a response wrapped in ```json fences has the fences stripped
before parsing. -/
theorem C5_malformed_oracle_response (jl : String → Option ReplyDecision)
    (text : String) :
    (jl (strip_fences (py_strip text)) = none →
      (analyze_message_and_generate_reply jl (.ok text)).1 = .ok ⟨false, "", ""⟩) ∧
    strip_fences "```json\n\x7b\"should_reply\": true\x7d\n```"
      = "\x7b\"should_reply\": true\x7d" := by
  constructor
  · intro h
    simp [analyze_message_and_generate_reply, h]
  · decide

/-- C5 witness: plain prose (under a parser that rejects it) yields the
quiet no-reply decision. -/
theorem C5_malformed_oracle_response_witness :
    (analyze_message_and_generate_reply jlNo
        (.ok "The chat shows no new messages.")).1 = .ok ⟨false, "", ""⟩ :=
  (C5_malformed_oracle_response jlNo "The chat shows no new messages.").1 rfl

/-- C10 counterexample: the claim says `check_rate_limit` "mutates
RateState even when it returns false".  At the one kind of input where
the reset mutation fires — count at the cap 10 with the window expired
(elapsed 4000 > 3600) — the check returns `true`, not `false`: the reset
zeroes the count below the cap before the cap test runs, so mutation and
a `false` return never coincide. -/
theorem C10_mutation_returns_true :
    (check_rate_limit 4000 ⟨10, 0⟩).1 = true ∧
    (check_rate_limit 4000 ⟨10, 0⟩).2 ≠ (⟨10, 0⟩ : RateState) := by decide

/-- C10 (amended): the window reset boundary is strict — at exactly
3600 s elapsed no reset occurs, and the state changes only when strictly
more than 3600 s have elapsed; the reset is performed inside the check
itself, but a reset call returns `true` (the count was just zeroed below
the cap), and every call that returns `false` leaves RateState exactly
unchanged. -/
theorem C10_reset_boundary_strict (now : ℤ) (rc : RateState) :
    (now - rc.reset_time = 3600 → (check_rate_limit now rc).2 = rc) ∧
    ((check_rate_limit now rc).2 ≠ rc → now - rc.reset_time > 3600) ∧
    ((check_rate_limit now rc).1 = false → (check_rate_limit now rc).2 = rc) ∧
    (now - rc.reset_time > 3600 → check_rate_limit now rc = (true, ⟨0, now⟩)) := by
  unfold check_rate_limit
  by_cases hr : now - rc.reset_time > 3600
  · have hne : (⟨0, now⟩ : RateState) ≠ rc := by
      intro he
      rw [← he] at hr
      simp at hr
    refine ⟨fun h3 => absurd (h3 ▸ hr) (by simp), fun _ => hr, ?_, fun _ => ?_⟩ <;>
      simp [hr, MAX_REPLIES_PER_HOUR]
  · by_cases hcnt : rc.count ≥ MAX_REPLIES_PER_HOUR <;>
      simp [hr, hcnt]

/-- C10 amended witness: at exactly 3600 s elapsed nothing is reset, and
a refused call (count at the cap) leaves the state unchanged. -/
theorem C10_reset_boundary_strict_witness :
    (check_rate_limit 3600 ⟨10, 0⟩).2 = (⟨10, 0⟩ : RateState) ∧
    (check_rate_limit 7000 ⟨10, 3600⟩).2 = (⟨10, 3600⟩ : RateState) :=
  ⟨(C10_reset_boundary_strict 3600 ⟨10, 0⟩).1 rfl,
   (C10_reset_boundary_strict 7000 ⟨10, 3600⟩).2.2.1 (by decide)⟩

/-- A state whose ledger already holds the fingerprint `"abc123"` with
last-reply time 1000 and whose counter is idle. -/
def sLedger : BotState := ⟨[("abc123", 1000)], ⟨0, 0⟩⟩

/-- A fully successful iteration environment at time 1300 (exactly
`REPLY_COOLDOWN` after the ledger entry of `sLedger`). -/
def env1300 : IterEnv :=
  ⟨1300, 1300, 1300, 1300, .ok true, .ok (some img0), .ok "resp", .ok true, .ok ()⟩

/-- A state with an empty ledger whose counter sits at the hourly cap,
window started at time 0. -/
def s10 : BotState := ⟨[], ⟨10, 0⟩⟩

/-- An environment at time 1000 whose injection click fails (the window
vanished at send time), everything else succeeding. -/
def envSendFail : IterEnv :=
  ⟨1000, 1000, 1000, 1000, .ok true, .ok (some img0), .ok "resp", .ok false, .ok ()⟩

/-- C3: the reply counter never exceeds the hourly cap: an iteration
preserves `count ≤ MAX_REPLIES_PER_HOUR`; when the counter is at or over
the cap and the window has not expired, an attempt that reaches the rate
gate is suppressed as `rateLimited` before the oracle is invoked; and
once strictly more than 3600 s have elapsed since the window start, the
rate check resets the counter to 0 and permits a new send. -/
theorem C3_hourly_cap_enforced (md5 : List ℕ → String)
    (jl : String → Option ReplyDecision) (env : IterEnv) (s : BotState) :
    (s.reply_counter.count ≤ MAX_REPLIES_PER_HOUR →
      (main_step md5 jl env s).state.reply_counter.count ≤ MAX_REPLIES_PER_HOUR) ∧
    (∀ img : Image, env.focus = .ok true → env.capture = .ok (some img) →
      ¬(env.tGate - dictGet s.message_history (generate_image_hash md5 img) 0
        < REPLY_COOLDOWN) →
      MAX_REPLIES_PER_HOUR ≤ s.reply_counter.count →
      env.tRate - s.reply_counter.reset_time ≤ 3600 →
      (main_step md5 jl env s).phase = Phase.rateLimited ∧
      (main_step md5 jl env s).oracleInvoked = false) ∧
    (env.tRate - s.reply_counter.reset_time > 3600 →
      check_rate_limit env.tRate s.reply_counter = (true, ⟨0, env.tRate⟩)) := by
  have hmb := main_step_mirrors_body md5 jl env s
  refine ⟨?_, ?_, ?_⟩
  · intro hle
    rw [hmb.2.1]
    have hcr : (check_rate_limit env.tRate s.reply_counter).2.count ≤ MAX_REPLIES_PER_HOUR ∧
        ((check_rate_limit env.tRate s.reply_counter).1 = true →
          (check_rate_limit env.tRate s.reply_counter).2.count < MAX_REPLIES_PER_HOUR) := by
      simp only [check_rate_limit]
      split_ifs <;> simp_all [MAX_REPLIES_PER_HOUR]
    simp only [loop_body]
    repeat' split
    all_goals simp_all
    all_goals omega
  · intro img hf hc hgate hcap hwin
    have hfalse : (check_rate_limit env.tRate s.reply_counter).1 = false := by
      unfold check_rate_limit
      rw [if_neg (by omega : ¬(env.tRate - s.reply_counter.reset_time > 3600))]
      rw [if_pos hcap]
    have h := loop_body_rate_refused md5 jl env s img hf hc hgate hfalse
    rw [hmb.1, hmb.2.2]
    exact ⟨h.1, h.2.1⟩
  · intro hwin
    unfold check_rate_limit
    rw [if_pos hwin]
    simp [MAX_REPLIES_PER_HOUR]

/-- C3 witness: at the cap (10) within the window, the concrete attempt
at time 1000 is rate-suppressed without invoking the oracle, the count
stays within the cap, and at time 5000 (elapsed 5000 > 3600) the check
resets to 0 and permits a send. -/
theorem C3_hourly_cap_enforced_witness :
    ((main_step md5c jlYes env1000 s10).state.reply_counter.count
      ≤ MAX_REPLIES_PER_HOUR) ∧
    (main_step md5c jlYes env1000 s10).phase = Phase.rateLimited ∧
    (main_step md5c jlYes env1000 s10).oracleInvoked = false ∧
    check_rate_limit 5000 ⟨10, 0⟩ = (true, ⟨0, 5000⟩) := by
  have h := C3_hourly_cap_enforced md5c jlYes env1000 s10
  have h2 := h.2.1 img0 rfl rfl (by decide) (by decide) (by decide)
  exact ⟨h.1 (by decide), h2.1, h2.2, (C3_hourly_cap_enforced md5c jlYes
    ⟨5000, 5000, 5000, 5000, .ok true, .ok (some img0), .ok "resp", .ok true, .ok ()⟩
    s10).2.2 (by decide)⟩

/-- C4: when injection reports failure, the iteration performs no
bookkeeping — the ledger is exactly what it was and the counter is
exactly what the rate check (which runs before the injection attempt)
left, so the message stays eligible for a later retry. -/
theorem C4_failed_send_no_bookkeeping (md5 : List ℕ → String)
    (jl : String → Option ReplyDecision) (env : IterEnv) (s : BotState) (img : Image)
    (d : ReplyDecision)
    (hf : env.focus = .ok true) (hc : env.capture = .ok (some img))
    (hgate : ¬(env.tGate - dictGet s.message_history (generate_image_hash md5 img) 0
      < REPLY_COOLDOWN))
    (hcr : (check_rate_limit env.tRate s.reply_counter).1 = true)
    (han : (analyze_message_and_generate_reply jl env.oracle).1 = .ok d)
    (hsr : (d.should_reply && d.reply != "") = true)
    (hsend : (send_reply env.click env.typing d.reply).1 = .ok false) :
    (main_step md5 jl env s).state.message_history = s.message_history ∧
    (main_step md5 jl env s).state.reply_counter =
      (check_rate_limit env.tRate s.reply_counter).2 ∧
    (main_step md5 jl env s).phase = Phase.sendFailed := by
  have hmb := main_step_mirrors_body md5 jl env s
  have h := loop_body_send_failed md5 jl env s img d hf hc hgate hcr han hsr hsend
  rw [hmb.1, hmb.2.1, h.2]
  exact ⟨rfl, rfl, h.1⟩

/-- C4 witness: the concrete failed injection at time 1000 (the click
into the chat fails) leaves the empty ledger empty and the counter at
`{count := 0, reset_time := 0}`. -/
theorem C4_failed_send_no_bookkeeping_witness :
    (main_step md5c jlYes envSendFail s0).state.message_history = [] ∧
    (main_step md5c jlYes envSendFail s0).state.reply_counter =
      (check_rate_limit 1000 ⟨0, 0⟩).2 ∧
    (main_step md5c jlYes envSendFail s0).phase = Phase.sendFailed :=
  C4_failed_send_no_bookkeeping md5c jlYes envSendFail s0 img0
    ⟨true, "good morning", "morning"⟩ rfl rfl (by decide) (by decide) (by decide)
    (by decide) (by decide)

/-- C6: a rate-limited iteration never invokes the oracle and leaves the
dedupe ledger untouched (no dedupe slot is consumed even for a brand-new
fingerprint); and the cooldown check is consulted first — when the
cooldown is active the pass ends `cooldownSuppressed` even if the
counter is at the cap, with the whole state untouched. -/
theorem C6_rate_suppression_consumes_nothing (md5 : List ℕ → String)
    (jl : String → Option ReplyDecision) (env : IterEnv) (s : BotState) (img : Image)
    (hf : env.focus = .ok true) (hc : env.capture = .ok (some img)) :
    (¬(env.tGate - dictGet s.message_history (generate_image_hash md5 img) 0
        < REPLY_COOLDOWN) →
      (check_rate_limit env.tRate s.reply_counter).1 = false →
      (main_step md5 jl env s).phase = Phase.rateLimited ∧
      (main_step md5 jl env s).oracleInvoked = false ∧
      (main_step md5 jl env s).state.message_history = s.message_history) ∧
    (env.tGate - dictGet s.message_history (generate_image_hash md5 img) 0
        < REPLY_COOLDOWN →
      MAX_REPLIES_PER_HOUR ≤ s.reply_counter.count →
      (main_step md5 jl env s).phase = Phase.cooldownSuppressed ∧
      (main_step md5 jl env s).oracleInvoked = false ∧
      (main_step md5 jl env s).state = s) := by
  have hmb := main_step_mirrors_body md5 jl env s
  constructor
  · intro hgate hcr
    have h := loop_body_rate_refused md5 jl env s img hf hc hgate hcr
    rw [hmb.1, hmb.2.1, hmb.2.2, h.2.2]
    exact ⟨h.1, h.2.1, rfl⟩
  · intro hgate _
    have h := loop_body_cooldown_first md5 jl env s img hf hc hgate
    rw [hmb.1, hmb.2.1, hmb.2.2]
    exact ⟨h.1, h.2.1, h.2.2⟩

/-- C6 witness: at the cap with a brand-new fingerprint (time 1000,
empty ledger) the pass is rate-suppressed, the oracle is not invoked and
the ledger stays empty; with the cooldown active (time 1060, ledger
entry at 1000) and the counter at the cap, the pass is
cooldown-suppressed with the state untouched. -/
theorem C6_rate_suppression_consumes_nothing_witness :
    ((main_step md5c jlYes env1000 s10).phase = Phase.rateLimited ∧
      (main_step md5c jlYes env1000 s10).oracleInvoked = false ∧
      (main_step md5c jlYes env1000 s10).state.message_history = []) ∧
    ((main_step md5c jlYes env1060 ⟨[("abc123", 1000)], ⟨10, 0⟩⟩).phase
        = Phase.cooldownSuppressed ∧
      (main_step md5c jlYes env1060 ⟨[("abc123", 1000)], ⟨10, 0⟩⟩).state
        = ⟨[("abc123", 1000)], ⟨10, 0⟩⟩) := by
  have h1 := (C6_rate_suppression_consumes_nothing md5c jlYes env1000 s10 img0
    rfl rfl).1 (by decide) (by decide)
  have h2 := (C6_rate_suppression_consumes_nothing md5c jlYes env1060
    ⟨[("abc123", 1000)], ⟨10, 0⟩⟩ img0 rfl rfl).2 (by decide) (by decide)
  exact ⟨⟨h1.1, h1.2.1, h1.2.2⟩, ⟨h2.1, h2.2.2⟩⟩

/-- C7: with the ledger holding fingerprint `F` last replied to at time
`T`, the gate check of an iteration at time `T + d` suppresses the pass
(phase `cooldownSuppressed`) exactly when `d < REPLY_COOLDOWN`; in
particular at `d = REPLY_COOLDOWN` it does not suppress — the boundary
is exclusive. -/
theorem C7_cooldown_boundary_exclusive (md5 : List ℕ → String)
    (jl : String → Option ReplyDecision) (env : IterEnv) (s : BotState) (img : Image)
    (F : String) (T d : ℤ)
    (hf : env.focus = .ok true) (hc : env.capture = .ok (some img))
    (hF : generate_image_hash md5 img = F)
    (hT : dictGet s.message_history F 0 = T)
    (ht : env.tGate = T + d) :
    (main_step md5 jl env s).phase = Phase.cooldownSuppressed ↔ d < REPLY_COOLDOWN := by
  rw [(main_step_mirrors_body md5 jl env s).1]
  by_cases hd : d < REPLY_COOLDOWN
  · have hgate : env.tGate - dictGet s.message_history (generate_image_hash md5 img) 0
        < REPLY_COOLDOWN := by
      rw [hF, hT, ht]
      omega
    simp [(loop_body_cooldown_first md5 jl env s img hf hc hgate).1, hd]
  · have hgate : ¬(env.tGate - dictGet s.message_history (generate_image_hash md5 img) 0
        < REPLY_COOLDOWN) := by
      rw [hF, hT, ht]
      omega
    simp only [hd, iff_false]
    simp only [loop_body, hf, hc, focus_whatsapp, get_chat_image, if_neg hgate]
    repeat' split
    all_goals simp

/-- C7 witness: at exactly `d = REPLY_COOLDOWN` (gate time 1300, ledger
entry at 1000) the pass is not suppressed, while at `d = 60` (gate time
1060) it is. -/
theorem C7_cooldown_boundary_exclusive_witness :
    (main_step md5c jlYes env1300 sLedger).phase ≠ Phase.cooldownSuppressed ∧
    (main_step md5c jlYes env1060 sLedger).phase = Phase.cooldownSuppressed :=
  ⟨fun h => absurd ((C7_cooldown_boundary_exclusive md5c jlYes env1300 sLedger img0
      "abc123" 1000 300 rfl rfl rfl rfl (by decide)).mp h) (by decide),
   (C7_cooldown_boundary_exclusive md5c jlYes env1060 sLedger img0
      "abc123" 1000 60 rfl rfl rfl rfl (by decide)).mpr (by decide)⟩

/-- C8: no exception raised by an external call inside the per-iteration
body terminates the loop — if no call raised the interrupt the iteration
continues and sleeps the standard `SCAN_INTERVAL`; the loop stops only
when some call raised the interrupt; over any schedule free of
interrupts, every scheduled iteration executes; and an absorbed
exception leaves its distinguishable marker in the log (shown for the
window-focus phase). -/
theorem C8_exceptions_never_fatal (md5 : List ℕ → String)
    (jl : String → Option ReplyDecision) :
    (∀ (env : IterEnv) (s : BotState), env.noInterrupt →
      (main_step md5 jl env s).ctl = LoopCtl.cont ∧
      (main_step md5 jl env s).sleptFor = SCAN_INTERVAL) ∧
    (∀ (env : IterEnv) (s : BotState),
      (main_step md5 jl env s).ctl = LoopCtl.stop → ¬env.noInterrupt) ∧
    (∀ (envs : List IterEnv) (s : BotState), (∀ e ∈ envs, e.noInterrupt) →
      (run_loop md5 jl envs s).2 = envs.length) ∧
    (∀ (env : IterEnv) (s : BotState) (m : String),
      env.focus = .error (.error m) →
      ("[!] Window focus error: " ++ m) ∈ (main_step md5 jl env s).log) := by
  have hcont : ∀ (env : IterEnv) (s : BotState), env.noInterrupt →
      (main_step md5 jl env s).ctl = LoopCtl.cont := by
    intro env s hni
    rcases loop_body_exc_cases md5 jl env s with hn | ⟨_, hcontra⟩
    · unfold main_step
      simp [hn]
    · exact absurd hni hcontra
  refine ⟨fun env s hni => ⟨hcont env s hni, main_step_cont_sleeps md5 jl env s
    (hcont env s hni)⟩, ?_, ?_, ?_⟩
  · intro env s hstop hni
    rw [hcont env s hni] at hstop
    exact LoopCtl.noConfusion hstop
  · intro envs
    induction envs with
    | nil => intro s _; rfl
    | cons e rest ih =>
      intro s hall
      have hc := hcont e s (hall e (by simp))
      simp only [run_loop, hc, List.length_cons]
      rw [ih ((main_step md5 jl e s).state) (fun x hx => hall x (by simp [hx]))]
  · intro env s m hfm
    have hfw : focus_whatsapp env.focus = (.ok false, ["[!] Window focus error: " ++ m]) := by
      rw [hfm]
      rfl
    simp [main_step, loop_body, hfw]

/-- C8 witness: the interrupt-free environment at time 1000 continues
and sleeps 20 s; a schedule of two interrupt-free iterations runs both;
a focus-phase exception leaves its marker in the log. -/
theorem C8_exceptions_never_fatal_witness :
    ((main_step md5c jlYes env1000 s0).ctl = LoopCtl.cont ∧
      (main_step md5c jlYes env1000 s0).sleptFor = SCAN_INTERVAL) ∧
    (run_loop md5c jlYes [env1000, env1060] s0).2 = 2 ∧
    ("[!] Window focus error: boom" ∈
      (main_step md5c jlYes
        ⟨1000, 1000, 1000, 1000, .error (.error "boom"), .ok (some img0), .ok "resp",
          .ok true, .ok ()⟩ s0).log) :=
  ⟨(C8_exceptions_never_fatal md5c jlYes).1 env1000 s0 (by decide),
   (C8_exceptions_never_fatal md5c jlYes).2.2.1 [env1000, env1060] s0 (by decide),
   (C8_exceptions_never_fatal md5c jlYes).2.2.2
     ⟨1000, 1000, 1000, 1000, .error (.error "boom"), .ok (some img0), .ok "resp",
       .ok true, .ok ()⟩ s0 "boom" rfl⟩

/-- C9: immediately after the bookkeeping of every successful send the
dedupe ledger is empty — `message_history.clear()` runs before the
age-based pruning loop, removing every entry including the one recorded
moments earlier — and the subsequent 24-hour pruning pass over the
cleared mapping deletes nothing. -/
theorem C9_clear_wipes_ledger (md5 : List ℕ → String)
    (jl : String → Option ReplyDecision) (env : IterEnv) (s : BotState) :
    ((main_step md5 jl env s).phase = Phase.sent →
      (main_step md5 jl env s).state.message_history = []) ∧
    (∀ (d : DedupeLedger) (t : ℤ), prune_history (dict_clear d) t = dict_clear d) := by
  refine ⟨?_, fun d t => rfl⟩
  rw [(main_step_mirrors_body md5 jl env s).1, (main_step_mirrors_body md5 jl env s).2.1]
  simp only [loop_body]
  repeat' split
  all_goals simp_all [prune_history, dict_clear]

/-- C9 witness: the concrete successful send at time 1000 ends in phase
`sent`, and its resulting ledger is empty. -/
theorem C9_clear_wipes_ledger_witness :
    (main_step md5c jlYes env1000 s0).state.message_history = [] :=
  (C9_clear_wipes_ledger md5c jlYes env1000 s0).1 (by decide)

end WBot
